import Mathlib

/-!
Shallow embedding of the BestellDesk Flask application (src/app.py).

The MongoDB collections are modelled as Lean lists of structures; document
ids are modelled as natural numbers handed out by a counter carried in the
store.  Mongo semantics used by the app: `update_one`/`delete_one` act on
the first matching document, `update_many({})` acts on every document,
`find_one` returns the first match.  Python floats are modelled as
rationals.  Each Flask handler becomes a pure function from its inputs
(the session's logged-in flag, the path id, the parsed form or JSON body)
and the store to a response paired with the store after all committed
writes; an uncaught Python exception is the `serverError` response, paired
with the writes that were committed before the exception was raised.
-/

namespace BestellDesk

abbrev Id := Nat

/-- Models `update_one`: update the first element matching `p`, if any. -/
def updateFirst {α : Type} (p : α → Bool) (f : α → α) : List α → List α
  | [] => []
  | x :: xs => if p x then f x :: xs else x :: updateFirst p f xs

/-- Models `find_one`: the first element matching `p`, if any. -/
def findFirst {α : Type} (p : α → Bool) : List α → Option α
  | [] => none
  | x :: xs => if p x then some x else findFirst p xs

/-- Models `delete_one`: remove the first element matching `p`, if any. -/
def deleteFirst {α : Type} (p : α → Bool) : List α → List α
  | [] => []
  | x :: xs => if p x then xs else x :: deleteFirst p xs

/-- Value of a list of decimal digit characters, most significant first. -/
def digitsToNat (cs : List Char) : Nat :=
  cs.foldl (fun a c => a * 10 + (c.toNat - 48)) 0

/-- Models Python `str.strip()`: drop whitespace from both ends. -/
def pyStrip (s : String) : String :=
  String.mk (((s.data.dropWhile Char.isWhitespace).reverse.dropWhile Char.isWhitespace).reverse)

/-- Models the `replace(",", ".")` call: every comma becomes a dot. -/
def kommaZuPunkt (s : String) : String :=
  String.mk (s.data.map (fun c => if c = ',' then '.' else c))

/-- Exponent digits of a float literal, after an optional sign. -/
def parseExpDigits (mant : ℚ) (cs : List Char) : Option ℚ :=
  let p :=
    match cs with
    | '+' :: ds => (false, ds)
    | '-' :: ds => (true, ds)
    | ds => (false, ds)
  if p.2 = [] ∨ ¬ p.2.all Char.isDigit then none
  else some (if p.1 then mant / 10 ^ digitsToNat p.2 else mant * 10 ^ digitsToNat p.2)

/-- Optional exponent suffix of a float literal. -/
def parseExpTail (mant : ℚ) : List Char → Option ℚ
  | [] => some mant
  | 'e' :: rest => parseExpDigits mant rest
  | 'E' :: rest => parseExpDigits mant rest
  | _ => none

/-- Unsigned decimal mantissa with optional fraction and exponent; at least
one digit must be present in the mantissa. -/
def parseUnsigned (cs : List Char) : Option ℚ :=
  let ip := cs.takeWhile Char.isDigit
  let r1 := cs.dropWhile Char.isDigit
  match r1 with
  | '.' :: r2 =>
    let fp := r2.takeWhile Char.isDigit
    let r3 := r2.dropWhile Char.isDigit
    if ip = [] ∧ fp = [] then none
    else parseExpTail ((digitsToNat ip : ℚ) + (digitsToNat fp : ℚ) / (10 : ℚ) ^ fp.length) r3
  | _ =>
    if ip = [] then none else parseExpTail ((digitsToNat ip : ℚ)) r1

/-- Models Python `float(s)`: strip whitespace, optional sign, decimal
mantissa with optional fraction and exponent.  The CPython extras never
used by this app (`inf`, `nan`, digit underscores) are not modelled.
Returns `none` where `float` raises `ValueError`. -/
def pyFloat (s : String) : Option ℚ :=
  match (pyStrip s).data with
  | '+' :: rest => parseUnsigned rest
  | '-' :: rest => (parseUnsigned rest).map (fun q => -q)
  | cs => parseUnsigned cs

/-- Floor of a rational, via flooring integer division. -/
def floorQ (q : ℚ) : ℤ := q.num.fdiv q.den

/-- Round to the nearest integer, ties to even — Python `round`. -/
def roundHalfEven (q : ℚ) : ℤ :=
  let f := floorQ q
  if q - (f : ℚ) < 1 / 2 then f
  else if (1 : ℚ) / 2 < q - (f : ℚ) then f + 1
  else if f % 2 = 0 then f else f + 1

/-- Models Python `round(x, 2)` on the rational model. -/
def round2 (q : ℚ) : ℚ := (roundHalfEven (q * 100) : ℚ) / 100

/-- A dish document.  Dishes submitted through the public API are stored
unvalidated, so every field is optional. -/
structure Gericht where
  nr : Option String
  name : Option String
  preis : Option ℚ
  schaerfegrad : Option String
  notiz : Option String
  deriving DecidableEq, Repr

/-- The `zahlung` subdocument written by the payment route. -/
structure Zahlung where
  erhalten : Bool
  betrag : ℚ
  rueckgeld_gegeben : Bool
  deriving DecidableEq, Repr

/-- An order document of the `bestellungen` collection. -/
structure Bestellung where
  id : Id
  name : Option String
  gerichte : List Gericht
  lieferant_id : Option Id
  zahlung : Option Zahlung
  deriving DecidableEq, Repr

/-- A supplier document of the `lieferanten` collection. -/
structure Lieferant where
  id : Id
  name : Option String
  versand_pro_person : ℚ
  menu_typ : Option String
  menu_info : Option String
  whatsapp_nummer : Option String
  aktiv : Bool
  deriving DecidableEq, Repr

/-- The settings document with `typ = "zeitfenster"`. -/
structure Zeitfenster where
  von : Option String
  bis : Option String
  name : Option String
  deriving DecidableEq, Repr

/-- The three MongoDB collections plus an id counter.  `whatsappNummer` is
the `nummer` field of the settings document with `typ = "whatsapp"`
(`none` means the document is absent). -/
structure Store where
  bestellungen : List Bestellung
  lieferanten : List Lieferant
  zeitfenster : Option Zeitfenster
  whatsappNummer : Option String
  nextId : Id
  deriving DecidableEq, Repr

/-- Row of the admin order list: the displayed total and change. -/
structure BestellungView where
  summe : ℚ
  rueckgeld : Option ℚ
  deriving DecidableEq, Repr

/-- Unrounded sum of the dish prices: `sum(g.get("preis", 0) for g in ...)`. -/
def summeGerichte (b : Bestellung) : ℚ :=
  (b.gerichte.map (fun g => g.preis.getD 0)).sum

/-- Per-order derivation of `admin_bestellungen` (src/app.py lines 101-110):
rounded total, and change `round(betrag - summe, 2) if betrag > summe else 0`
unless `rueckgeld_gegeben` is set, in which case change is `None`. -/
def viewBestellung (b : Bestellung) : BestellungView :=
  let summe := summeGerichte b
  let betrag := (b.zahlung.map Zahlung.betrag).getD 0
  let gegeben := (b.zahlung.map Zahlung.rueckgeld_gegeben).getD false
  { summe := round2 summe
    rueckgeld :=
      if !gegeben then some (if betrag > summe then round2 (betrag - summe) else 0)
      else none }

/-- The same derivation as the spec words it: the change due is
`max(0, paymentAmount - total)` rounded to 2 decimal places, unless change
was already marked given (then it is null). -/
def viewBestellungSpec (b : Bestellung) : BestellungView :=
  let total := summeGerichte b
  let betrag := (b.zahlung.map Zahlung.betrag).getD 0
  let gegeben := (b.zahlung.map Zahlung.rueckgeld_gegeben).getD false
  { summe := round2 total
    rueckgeld := if gegeben then none else some (round2 (max 0 (betrag - total))) }

/-- Responses of the HTML routes.  An uncaught Python exception surfaces as
`serverError` (HTTP 500). -/
inductive Response
  | redirectLogin
  | redirectBestellungen
  | redirectLieferanten
  | redirectZeitfenster
  | notFound (msg : String)
  | page (template : String)
  | bestellungenPage (rows : List BestellungView) (gesamtpreis : ℚ)
  | serverError
  deriving DecidableEq, Repr

/-- JSON body of the public API response. -/
inductive ApiBody
  | ok (id : Id)
  | apiError (reason : String)
  deriving DecidableEq, Repr

/-- Truthiness of an optional string, as in Python `not name`. -/
def truthy : Option String → Bool
  | none => false
  | some t => t != ""

/-- The JSON body of `POST /api/bestellung`; `none` models a falsy body
(the handler's `if not data` branch).  A missing `gerichte` key defaults to
the empty list, as in `data.get("gerichte", [])`. -/
structure BestellungJson where
  name : Option String
  gerichte : List Gericht
  deriving DecidableEq, Repr

/-- Handler of `POST /api/bestellung` (src/app.py lines 49-69): returns the
HTTP status with the JSON body, and the store after the request. -/
def bestellung_absenden (data : Option BestellungJson) (st : Store) :
    (Nat × ApiBody) × Store :=
  match data with
  | none => ((400, .apiError "no data"), st)
  | some d =>
    let lieferant := findFirst (fun l => l.aktiv) st.lieferanten
    if !truthy d.name || d.gerichte.isEmpty then
      ((400, .apiError "missing name or gerichte"), st)
    else
      let neu : Bestellung :=
        { id := st.nextId, name := d.name, gerichte := d.gerichte,
          lieferant_id := lieferant.map Lieferant.id, zahlung := none }
      ((200, .ok st.nextId),
       { st with bestellungen := st.bestellungen ++ [neu], nextId := st.nextId + 1 })

/-- Split a character list at every colon. -/
def splitColon : List Char → List (List Char)
  | [] => [[]]
  | c :: rest =>
    if c = ':' then [] :: splitColon rest
    else
      match splitColon rest with
      | [] => [[c]]
      | h :: t => (c :: h) :: t

/-- One field of the `"%H:%M"` format: one or two decimal digits. -/
def parseFeld (cs : List Char) : Option Nat :=
  if !cs.isEmpty && decide (cs.length ≤ 2) && cs.all Char.isDigit then some (digitsToNat cs)
  else none

/-- Models `datetime.strptime(s, "%H:%M").time()` as minutes after
midnight; `none` where `strptime` raises. -/
def parseHM (s : String) : Option Nat :=
  match splitColon s.data with
  | [hs, ms] =>
    match parseFeld hs, parseFeld ms with
    | some h, some m => if h ≤ 23 ∧ m ≤ 59 then some (h * 60 + m) else none
    | _, _ => none
  | _ => none

/-- The ordering-window check of `bestellseite` (src/app.py lines 31-43):
`von_time <= now <= bis_time`, with any exception of the parse (absent
value → `TypeError`, malformed value → `ValueError`) caught and the page
treated as open.  `now` is in minutes after midnight. -/
def istBestellbar (von bis : Option String) (now : Nat) : Bool :=
  match von, bis with
  | some v, some b =>
    match parseHM v, parseHM b with
    | some vt, some bt => decide (vt ≤ now ∧ now ≤ bt)
    | _, _ => true
  | _, _ => true

/-- `GET /` computes `bestellbar` from the zeitfenster settings document;
with no document the page is open. -/
def bestellseiteBestellbar (st : Store) (now : Nat) : Bool :=
  match st.zeitfenster with
  | none => true
  | some e => istBestellbar e.von e.bis now

/-- Handler of `GET /admin/logout`: clears the session and redirects to the
login page, with no store access. -/
def admin_logout (_loggedIn : Bool) (st : Store) : Response × Store :=
  (.redirectLogin, st)

/-- Handler of `GET /admin/bestellungen` (src/app.py lines 93-116). -/
def admin_bestellungen (loggedIn : Bool) (st : Store) : Response × Store :=
  if !loggedIn then (.redirectLogin, st)
  else
    (.bestellungenPage (st.bestellungen.map viewBestellung)
       (round2 ((st.bestellungen.map summeGerichte).sum)), st)

/-- Handler of `POST /admin/bestellung/loeschen/<id>` (src/app.py lines 119-125). -/
def bestellung_loeschen (loggedIn : Bool) (bid : Id) (st : Store) : Response × Store :=
  if !loggedIn then (.redirectLogin, st)
  else (.redirectBestellungen,
        { st with bestellungen := deleteFirst (fun b => b.id == bid) st.bestellungen })

/-- Handler of `POST /admin/bestellungen/alle-loeschen` (src/app.py lines 128-134). -/
def bestellungen_loeschen_alle (loggedIn : Bool) (st : Store) : Response × Store :=
  if !loggedIn then (.redirectLogin, st)
  else (.redirectBestellungen, { st with bestellungen := [] })

/-- The `gericht_{i}_*` form fields for one index `i`; a `none` field is
absent from the form. -/
structure GerichtFeld where
  nr : Option String
  name : Option String
  preis : Option String
  schaerfegrad : Option String
  notiz : Option String
  deriving DecidableEq, Repr

/-- The edit form: the order name and the indexed dish fields (entry `i`
holds the `gericht_{i}_*` fields; indices past the list have no fields). -/
structure EditForm where
  name : Option String
  gerichte : List GerichtFeld
  deriving DecidableEq, Repr

/-- The sequential scan of `bestellung_bearbeiten` (src/app.py lines
150-162): read dishes at indices 0, 1, 2, … until the first index whose
`name` field is absent.  `float` on the price field raises `TypeError`
when the field is absent and `ValueError` when it does not parse; both are
uncaught. -/
def parseGerichte : List GerichtFeld → Except String (List Gericht)
  | [] => .ok []
  | g :: rest =>
    match g.name with
    | none => .ok []
    | some nm =>
      match g.preis with
      | none => .error "TypeError"
      | some p =>
        match pyFloat p with
        | none => .error "ValueError"
        | some preis =>
          match parseGerichte rest with
          | .error e => .error e
          | .ok gs =>
            .ok ({ nr := g.nr, name := some nm, preis := some preis,
                   schaerfegrad := g.schaerfegrad, notiz := g.notiz } :: gs)

/-- Handler of `GET|POST /admin/bestellung/bearbeiten/<id>` (src/app.py
lines 137-170); `form = none` models a GET request. -/
def bestellung_bearbeiten (loggedIn : Bool) (bid : Id) (form : Option EditForm)
    (st : Store) : Response × Store :=
  if !loggedIn then (.redirectLogin, st)
  else
    match findFirst (fun b => b.id == bid) st.bestellungen with
    | none => (.notFound "Bestellung nicht gefunden", st)
    | some _ =>
      match form with
      | none => (.page "admin_bearbeiten", st)
      | some f =>
        match parseGerichte f.gerichte with
        | .error _ => (.serverError, st)
        | .ok gs =>
          let neuListe :=
            updateFirst (fun b => b.id == bid)
              (fun b => { b with name := f.name, gerichte := gs }) st.bestellungen
          (.redirectBestellungen, { st with bestellungen := neuListe })

/-- The payment form fields (checkbox values arrive as the string `"on"`). -/
structure ZahlungForm where
  erhalten : Option String
  betrag : Option String
  rueckgeld_gegeben : Option String
  deriving DecidableEq, Repr

/-- Amount parsing of `bestellung_zahlung_speichern` (src/app.py lines
178-182): commas become dots, whitespace is stripped, an empty string is 0,
and a `ValueError` of `float` is caught and defaults the amount to 0. -/
def parseBetrag (raw : String) : ℚ :=
  let s := pyStrip (kommaZuPunkt raw)
  if s = "" then 0
  else
    match pyFloat s with
    | some v => v
    | none => 0

/-- Handler of `POST /admin/bestellung/zahlung/<id>` (src/app.py lines
173-195). -/
def bestellung_zahlung_speichern (loggedIn : Bool) (bid : Id) (form : ZahlungForm)
    (st : Store) : Response × Store :=
  if !loggedIn then (.redirectLogin, st)
  else
    let z : Zahlung :=
      { erhalten := form.erhalten == some "on"
        betrag := parseBetrag (form.betrag.getD "0")
        rueckgeld_gegeben := form.rueckgeld_gegeben == some "on" }
    let neuListe :=
      updateFirst (fun b => b.id == bid) (fun b => { b with zahlung := some z })
        st.bestellungen
    (.redirectBestellungen, { st with bestellungen := neuListe })

/-- The supplier create/edit form. -/
structure LieferantForm where
  name : Option String
  versand : Option String
  menu_typ : Option String
  menu_info : Option String
  whatsapp : Option String
  deriving DecidableEq, Repr

/-- Models `float(request.form.get("versand", 0))`: the default `0` is the
int 0, so an absent field parses to 0; a present but malformed value makes
`float` raise `ValueError`, which is uncaught. -/
def parseVersand : Option String → Option ℚ
  | none => some 0
  | some s => pyFloat s

/-- Handler of `GET|POST /admin/lieferanten` (src/app.py lines 198-224);
`form = none` models a GET request.  A created supplier is inserted with
`aktiv = False`. -/
def admin_lieferanten (loggedIn : Bool) (form : Option LieferantForm) (st : Store) :
    Response × Store :=
  if !loggedIn then (.redirectLogin, st)
  else
    match form with
    | none => (.page "admin_lieferanten", st)
    | some f =>
      match parseVersand f.versand with
      | none => (.serverError, st)
      | some v =>
        (.redirectLieferanten,
         { st with
             lieferanten := st.lieferanten ++
               [{ id := st.nextId, name := f.name, versand_pro_person := v,
                  menu_typ := f.menu_typ, menu_info := f.menu_info,
                  whatsapp_nummer := f.whatsapp, aktiv := false }],
             nextId := st.nextId + 1 })

/-- The two writes of `lieferant_aktivieren`:
`update_many({}, {"$set": {"aktiv": False}})` followed by
`update_one({"_id": lid}, {"$set": {"aktiv": True}})`. -/
def aktivierenListe (lid : Id) (l : List Lieferant) : List Lieferant :=
  updateFirst (fun x => x.id == lid) (fun x => { x with aktiv := true })
    (l.map (fun x => { x with aktiv := false }))

/-- Handler of `POST /admin/lieferant/aktivieren/<id>` (src/app.py lines
227-242).  With an unknown id the two updates match nothing, `find_one`
returns `None`, and `aktiver.get` raises an uncaught `AttributeError` —
after the deactivation of every supplier has already been committed. -/
def lieferant_aktivieren (loggedIn : Bool) (lid : Id) (st : Store) : Response × Store :=
  if !loggedIn then (.redirectLogin, st)
  else
    let st2 := { st with lieferanten := aktivierenListe lid st.lieferanten }
    match findFirst (fun x => x.id == lid) st2.lieferanten with
    | none => (.serverError, st2)
    | some aktiver =>
      (.redirectLieferanten,
       { st2 with whatsappNummer := some (aktiver.whatsapp_nummer.getD "") })

/-- Handler of `POST /admin/lieferant/loeschen/<id>` (src/app.py lines 245-251). -/
def lieferant_loeschen (loggedIn : Bool) (lid : Id) (st : Store) : Response × Store :=
  if !loggedIn then (.redirectLogin, st)
  else (.redirectLieferanten,
        { st with lieferanten := deleteFirst (fun x => x.id == lid) st.lieferanten })

/-- Handler of `GET|POST /admin/lieferant/bearbeiten/<id>` (src/app.py
lines 254-283); `form = none` models a GET request.  The edit never touches
the `aktiv` flag. -/
def lieferant_bearbeiten (loggedIn : Bool) (lid : Id) (form : Option LieferantForm)
    (st : Store) : Response × Store :=
  if !loggedIn then (.redirectLogin, st)
  else
    match findFirst (fun x => x.id == lid) st.lieferanten with
    | none => (.notFound "Lieferant nicht gefunden", st)
    | some _ =>
      match form with
      | none => (.page "admin_lieferant_bearbeiten", st)
      | some f =>
        match parseVersand f.versand with
        | none => (.serverError, st)
        | some v =>
          let setzeFelder := fun (x : Lieferant) =>
            { x with name := f.name, versand_pro_person := v, menu_typ := f.menu_typ, menu_info := f.menu_info, whatsapp_nummer := f.whatsapp }
          let neuListe := updateFirst (fun x => x.id == lid) setzeFelder st.lieferanten
          (.redirectLieferanten, { st with lieferanten := neuListe })

/-- The zeitfenster form. -/
structure ZeitfensterForm where
  von : Option String
  bis : Option String
  name : Option String
  deriving DecidableEq, Repr

/-- Handler of `GET|POST /admin/zeitfenster` (src/app.py lines 286-308);
`form = none` models a GET request.  The POST upserts the single
zeitfenster settings document. -/
def admin_zeitfenster (loggedIn : Bool) (form : Option ZeitfensterForm) (st : Store) :
    Response × Store :=
  if !loggedIn then (.redirectLogin, st)
  else
    match form with
    | none => (.page "admin_zeitfenster", st)
    | some f =>
      (.redirectZeitfenster, { st with zeitfenster := some ⟨f.von, f.bis, f.name⟩ })

/-- Every `/admin/...` route other than the login form, with its request data. -/
inductive AdminRoute
  | logout
  | bestellungen
  | bestellungLoeschen (bid : Id)
  | alleLoeschen
  | bearbeiten (bid : Id) (form : Option EditForm)
  | zahlung (bid : Id) (form : ZahlungForm)
  | lieferanten (form : Option LieferantForm)
  | aktivieren (lid : Id)
  | lieferantLoeschen (lid : Id)
  | lieferantBearbeiten (lid : Id) (form : Option LieferantForm)
  | zeitfenster (form : Option ZeitfensterForm)

/-- Dispatch an admin route to its handler, given the session's logged-in
flag and the store. -/
def handleAdmin : AdminRoute → Bool → Store → Response × Store
  | .logout, s, st => admin_logout s st
  | .bestellungen, s, st => admin_bestellungen s st
  | .bestellungLoeschen bid, s, st => bestellung_loeschen s bid st
  | .alleLoeschen, s, st => bestellungen_loeschen_alle s st
  | .bearbeiten bid f, s, st => bestellung_bearbeiten s bid f st
  | .zahlung bid f, s, st => bestellung_zahlung_speichern s bid f st
  | .lieferanten f, s, st => admin_lieferanten s f st
  | .aktivieren lid, s, st => lieferant_aktivieren s lid st
  | .lieferantLoeschen lid, s, st => lieferant_loeschen s lid st
  | .lieferantBearbeiten lid f, s, st => lieferant_bearbeiten s lid f st
  | .zeitfenster f, s, st => admin_zeitfenster s f st

lemma updateFirst_of_all_false {α : Type} {p : α → Bool} (f : α → α) {l : List α}
    (h : ∀ x ∈ l, p x = false) : updateFirst p f l = l := by
  induction l with
  | nil => rfl
  | cons x xs ih =>
    have hx := h x (List.mem_cons_self x xs)
    simp [updateFirst, hx, ih (fun y hy => h y (List.mem_cons_of_mem x hy))]

lemma deleteFirst_of_all_false {α : Type} {p : α → Bool} {l : List α}
    (h : ∀ x ∈ l, p x = false) : deleteFirst p l = l := by
  induction l with
  | nil => rfl
  | cons x xs ih =>
    have hx := h x (List.mem_cons_self x xs)
    simp [deleteFirst, hx, ih (fun y hy => h y (List.mem_cons_of_mem x hy))]

lemma countP_updateFirst {α : Type} {p q : α → Bool} {f : α → α}
    (hf : ∀ x, p (f x) = p x) (l : List α) :
    (updateFirst q f l).countP p = l.countP p := by
  induction l with
  | nil => rfl
  | cons x xs ih =>
    cases hq : q x with
    | false => simp [updateFirst, hq, List.countP_cons, ih]
    | true => simp [updateFirst, hq, List.countP_cons, hf]

lemma countP_deleteFirst_le {α : Type} (p q : α → Bool) (l : List α) :
    (deleteFirst q l).countP p ≤ l.countP p := by
  induction l with
  | nil => exact Nat.le_refl 0
  | cons x xs ih =>
    cases hq : q x with
    | true =>
      simp only [deleteFirst, hq, if_true, List.countP_cons]
      exact Nat.le_add_right _ _
    | false =>
      simp only [deleteFirst, hq, Bool.false_eq_true, if_false, List.countP_cons]
      exact Nat.add_le_add_right ih _

lemma findFirst_of_all_false {α : Type} {p : α → Bool} {l : List α}
    (h : ∀ x ∈ l, p x = false) : findFirst p l = none := by
  induction l with
  | nil => rfl
  | cons x xs ih =>
    have hx := h x (List.mem_cons_self x xs)
    simp [findFirst, hx, ih (fun y hy => h y (List.mem_cons_of_mem x hy))]

lemma findFirst_bestellung_none {l : List Bestellung} {bid : Id}
    (h : bid ∉ l.map Bestellung.id) : findFirst (fun b => b.id == bid) l = none := by
  apply findFirst_of_all_false
  intro b hb
  have : b.id ≠ bid := fun heq => h (List.mem_map.mpr ⟨b, hb, heq⟩)
  simpa using this

lemma findFirst_bestellung_isSome {l : List Bestellung} {bid : Id}
    (h : bid ∈ l.map Bestellung.id) :
    (findFirst (fun b => b.id == bid) l).isSome = true := by
  induction l with
  | nil => cases h
  | cons x xs ih =>
    cases hpx : (x.id == bid) with
    | true => simp [findFirst, hpx]
    | false =>
      simp only [findFirst, hpx, Bool.false_eq_true, if_false]
      apply ih
      have h2 : bid = x.id ∨ ∃ a ∈ xs, a.id = bid := by simpa using h
      rcases h2 with hx | ⟨a, ha, haid⟩
      · subst hx
        simp at hpx
      · exact List.mem_map.mpr ⟨a, ha, haid⟩

lemma countP_deaktiviert (l : List Lieferant) :
    (l.map (fun y => { y with aktiv := false })).countP (fun x => x.aktiv) = 0 := by
  induction l with
  | nil => rfl
  | cons x xs ih => simp [List.countP_cons, ih]

lemma findFirst_aktivierenListe_some {lid : Id} {l : List Lieferant} {lB : Lieferant}
    (h : findFirst (fun x => x.id == lid) l = some lB) :
    findFirst (fun x => x.id == lid) (aktivierenListe lid l) = some { lB with aktiv := true } := by
  induction l with
  | nil => cases h
  | cons x xs ih =>
    cases hx : (x.id == lid) with
    | true =>
      simp only [findFirst, hx, if_true] at h
      cases h
      simp [aktivierenListe, updateFirst, findFirst, hx]
    | false =>
      simp only [findFirst, hx, Bool.false_eq_true, if_false] at h
      have h2 := ih h
      simp only [aktivierenListe, List.map_cons, updateFirst, findFirst, hx,
        Bool.false_eq_true, if_false] at h2 ⊢
      exact h2

lemma findFirst_aktivierenListe_none {lid : Id} {l : List Lieferant}
    (h : findFirst (fun x => x.id == lid) l = none) :
    findFirst (fun x => x.id == lid) (aktivierenListe lid l) = none := by
  induction l with
  | nil => rfl
  | cons x xs ih =>
    cases hx : (x.id == lid) with
    | true => simp only [findFirst, hx, if_true] at h; cases h
    | false =>
      simp only [findFirst, hx, Bool.false_eq_true, if_false] at h
      have h2 := ih h
      simp only [aktivierenListe, List.map_cons, updateFirst, findFirst, hx,
        Bool.false_eq_true, if_false] at h2 ⊢
      exact h2

lemma countP_aktivierenListe_some {lid : Id} {l : List Lieferant} {lB : Lieferant}
    (h : findFirst (fun x => x.id == lid) l = some lB) :
    (aktivierenListe lid l).countP (fun x => x.aktiv) = 1 := by
  induction l with
  | nil => cases h
  | cons x xs ih =>
    cases hx : (x.id == lid) with
    | true =>
      simp only [aktivierenListe, List.map_cons, updateFirst, hx, if_true]
      simp [List.countP_cons, countP_deaktiviert]
    | false =>
      simp only [findFirst, hx, Bool.false_eq_true, if_false] at h
      have h2 := ih h
      simp only [aktivierenListe, List.map_cons, updateFirst, hx, Bool.false_eq_true,
        if_false, List.countP_cons] at h2 ⊢
      simp [h2]

lemma countP_aktivierenListe_none {lid : Id} {l : List Lieferant}
    (h : findFirst (fun x => x.id == lid) l = none) :
    (aktivierenListe lid l).countP (fun x => x.aktiv) = 0 := by
  induction l with
  | nil => rfl
  | cons x xs ih =>
    cases hx : (x.id == lid) with
    | true => simp only [findFirst, hx, if_true] at h; cases h
    | false =>
      simp only [findFirst, hx, Bool.false_eq_true, if_false] at h
      have h2 := ih h
      simp only [aktivierenListe, List.map_cons, updateFirst, hx, Bool.false_eq_true,
        if_false, List.countP_cons] at h2 ⊢
      simp [h2]

lemma aktivierenListe_aktiv_id (lid : Id) (l : List Lieferant) :
    ∀ x ∈ aktivierenListe lid l, x.aktiv = true → x.id = lid := by
  induction l with
  | nil => intro x hx; cases hx
  | cons y ys ih =>
    intro x hx hakt
    cases hy : (y.id == lid) with
    | true =>
      simp only [aktivierenListe, List.map_cons, updateFirst, hy, if_true] at hx
      rcases List.mem_cons.mp hx with hhead | htail
      · subst hhead
        exact eq_of_beq hy
      · obtain ⟨z, _, hz⟩ := List.mem_map.mp htail
        rw [← hz] at hakt
        cases hakt
    | false =>
      simp only [aktivierenListe, List.map_cons, updateFirst, hy, Bool.false_eq_true,
        if_false] at hx
      rcases List.mem_cons.mp hx with hhead | htail
      · subst hhead
        cases hakt
      · exact ih x htail hakt

lemma round2_zero : round2 0 = 0 := by
  norm_num [round2, roundHalfEven, floorQ]

/-- A store with all three collections empty. -/
def leererStore : Store :=
  { bestellungen := [], lieferanten := [], zeitfenster := none,
    whatsappNummer := none, nextId := 0 }

/-- An order used by the deletion scenarios. -/
def c7Bestellung : Bestellung :=
  { id := 1, name := some "Anna", gerichte := [], lieferant_id := none, zahlung := none }

/-- A store holding exactly the order with id 1. -/
def c7Store : Store :=
  { leererStore with bestellungen := [c7Bestellung], nextId := 2 }

/-- C8: every admin route except the login route, requested in the
logged-out session state, is answered with a redirect to the login page and
the store untouched, so no admin operation ever reads or mutates the store
without the logged-in flag set. -/
theorem c8_admin_routes_redirect_logged_out (r : AdminRoute) (st : Store) :
    handleAdmin r false st = (Response.redirectLogin, st) := by
  cases r <;> rfl

/-- C7: deleting a non-existent order id is not an error and leaves the
store unchanged, and running delete-all twice in a row leaves the state of
a single run, the second run answering the normal redirect. -/
theorem c7_delete_idempotent :
    (∀ st bid, bid ∉ st.bestellungen.map Bestellung.id →
        bestellung_loeschen true bid st = (Response.redirectBestellungen, st))
    ∧ (∀ st, bestellungen_loeschen_alle true (bestellungen_loeschen_alle true st).2 =
        (Response.redirectBestellungen, (bestellungen_loeschen_alle true st).2)) := by
  constructor
  · intro st bid h
    have hall : ∀ b ∈ st.bestellungen, (b.id == bid) = false := by
      intro b hb
      have : b.id ≠ bid := fun heq => h (List.mem_map.mpr ⟨b, hb, heq⟩)
      simpa using this
    simp [bestellung_loeschen, deleteFirst_of_all_false hall]
  · intro st
    rfl

/-- Witness for C7: deleting the absent id 5 from the one-order store is a
no-op with the normal redirect, and a second delete-all is a no-op. -/
theorem c7_delete_idempotent_witness :
    bestellung_loeschen true 5 c7Store = (Response.redirectBestellungen, c7Store)
    ∧ bestellungen_loeschen_alle true (bestellungen_loeschen_alle true c7Store).2 =
        (Response.redirectBestellungen, (bestellungen_loeschen_alle true c7Store).2) :=
  ⟨c7_delete_idempotent.1 c7Store 5 (by decide), c7_delete_idempotent.2 c7Store⟩

/-- C10: recording payment for an unknown order id is a silent no-op — the
request answers the normal redirect and no order is modified — while the
edit route checks existence and answers 404 for the same id. -/
theorem c10_zahlung_unknown_id_silent_noop :
    (∀ st bid form, bid ∉ st.bestellungen.map Bestellung.id →
        bestellung_zahlung_speichern true bid form st = (Response.redirectBestellungen, st))
    ∧ (∀ st bid form, bid ∉ st.bestellungen.map Bestellung.id →
        bestellung_bearbeiten true bid form st =
          (Response.notFound "Bestellung nicht gefunden", st)) := by
  constructor
  · intro st bid form h
    have hall : ∀ b ∈ st.bestellungen, (b.id == bid) = false := by
      intro b hb
      have : b.id ≠ bid := fun heq => h (List.mem_map.mpr ⟨b, hb, heq⟩)
      simpa using this
    simp [bestellung_zahlung_speichern, updateFirst_of_all_false _ hall]
  · intro st bid form h
    simp [bestellung_bearbeiten, findFirst_bestellung_none h]

/-- Witness for C10: with only order id 1 present, paying order 5 redirects
and changes nothing, while editing order 5 answers 404. -/
theorem c10_zahlung_unknown_id_silent_noop_witness :
    bestellung_zahlung_speichern true 5 ⟨none, some "10,50", none⟩ c7Store =
        (Response.redirectBestellungen, c7Store)
    ∧ bestellung_bearbeiten true 5 none c7Store =
        (Response.notFound "Bestellung nicht gefunden", c7Store) :=
  ⟨c10_zahlung_unknown_id_silent_noop.1 c7Store 5 ⟨none, some "10,50", none⟩ (by decide),
   c10_zahlung_unknown_id_silent_noop.2 c7Store 5 none (by decide)⟩

/-- A dish with every field absent, as a client may submit it. -/
def c1Gericht : Gericht :=
  { nr := none, name := none, preis := none, schaerfegrad := none, notiz := none }

/-- A submission body with a name and one completely empty dish. -/
def c1Daten : BestellungJson := { name := some "Anna", gerichte := [c1Gericht] }

/-- C1 counterexample: a submission whose single dish is missing number,
name and price is accepted anyway — the API answers HTTP 200 with status ok
and id 0 on the empty store, where the claim demands a 400 validation error
(and claims 201 for the success status). -/
theorem c1_counterexample :
    (bestellung_absenden (some c1Daten) leererStore).1 = (200, ApiBody.ok 0) := rfl

/-- C1 (amended): the handler answers 400 with a reason when the body is
falsy, the name is absent or empty, or the dishes list is empty; the
per-dish fields are never validated; otherwise it persists the order
exactly as submitted (tagging the active supplier, if any) and answers
HTTP 200 — not 201 — with status ok and the generated id. -/
theorem c1_submit_validation_amended :
    (∀ st, bestellung_absenden none st = ((400, ApiBody.apiError "no data"), st))
    ∧ (∀ st (d : BestellungJson), truthy d.name = false →
        bestellung_absenden (some d) st =
          ((400, ApiBody.apiError "missing name or gerichte"), st))
    ∧ (∀ st (d : BestellungJson), d.gerichte = [] →
        bestellung_absenden (some d) st =
          ((400, ApiBody.apiError "missing name or gerichte"), st))
    ∧ (∀ st (d : BestellungJson), truthy d.name = true → d.gerichte ≠ [] →
        bestellung_absenden (some d) st =
          ((200, ApiBody.ok st.nextId),
           { st with
               bestellungen := st.bestellungen ++
                 [{ id := st.nextId, name := d.name, gerichte := d.gerichte,
                    lieferant_id := (findFirst (fun l => l.aktiv) st.lieferanten).map Lieferant.id,
                    zahlung := none }],
               nextId := st.nextId + 1 })) := by
  refine ⟨fun st => rfl, ?_, ?_, ?_⟩
  · intro st d h
    simp [bestellung_absenden, h]
  · intro st d h
    simp [bestellung_absenden, h]
  · intro st d h1 h2
    cases hg : d.gerichte with
    | nil => exact absurd hg h2
    | cons a as => simp [bestellung_absenden, h1, hg]

/-- Witness for C1 (amended) at concrete inputs: an empty name is rejected,
an empty dish list is rejected, and a valid submission with one (empty)
dish is stored and answered with ok and id 0 at HTTP 200. -/
theorem c1_submit_validation_amended_witness :
    bestellung_absenden (some { name := some "", gerichte := [c1Gericht] }) leererStore =
        ((400, ApiBody.apiError "missing name or gerichte"), leererStore)
    ∧ bestellung_absenden (some { name := some "Anna", gerichte := [] }) leererStore =
        ((400, ApiBody.apiError "missing name or gerichte"), leererStore)
    ∧ bestellung_absenden (some c1Daten) leererStore =
        ((200, ApiBody.ok 0),
         { leererStore with
             bestellungen := [{ id := 0, name := some "Anna", gerichte := [c1Gericht],
                                lieferant_id := none, zahlung := none }],
             nextId := 1 }) :=
  ⟨c1_submit_validation_amended.2.1 leererStore _ rfl,
   c1_submit_validation_amended.2.2.1 leererStore _ rfl,
   c1_submit_validation_amended.2.2.2 leererStore c1Daten rfl (by decide)⟩

/-- C5: the payment-amount parser accepts a comma decimal separator —
"10,50" parses to 10.50 — and any string whose normalised form still fails
to parse defaults the amount to 0; the request itself always succeeds with
the normal redirect, storing the parsed payment on the first matching
order. -/
theorem c5_zahlung_betrag_parsing :
    parseBetrag "10,50" = 21 / 2
    ∧ (∀ s, pyFloat (pyStrip (kommaZuPunkt s)) = none → parseBetrag s = 0)
    ∧ (∀ bid form st,
        (bestellung_zahlung_speichern true bid form st).1 = Response.redirectBestellungen)
    ∧ (∀ bid form st, (bestellung_zahlung_speichern true bid form st).2.bestellungen =
        updateFirst (fun b => b.id == bid)
          (fun b => { b with zahlung := some { erhalten := form.erhalten == some "on", betrag := parseBetrag (form.betrag.getD "0"), rueckgeld_gegeben := form.rueckgeld_gegeben == some "on" } })
          st.bestellungen) := by
  refine ⟨?_, ?_, fun bid form st => rfl, fun bid form st => rfl⟩
  · have h : parseBetrag "10,50" = ((10 : ℕ) : ℚ) + ((50 : ℕ) : ℚ) / (10 : ℚ) ^ 2 := rfl
    rw [h]
    norm_num
  · intro s h
    simp only [parseBetrag, h]
    split <;> rfl

/-- Witness for C5: the unparseable amount "abc" defaults to 0. -/
theorem c5_zahlung_betrag_parsing_witness :
    parseBetrag "abc" = 0 ∧ pyFloat (pyStrip (kommaZuPunkt "abc")) = none :=
  ⟨c5_zahlung_betrag_parsing.2.1 "abc" rfl, rfl⟩

/-- The configured 11:00-14:00 window. -/
def c6Fenster : Zeitfenster :=
  { von := some "11:00", bis := some "14:00", name := some "Thai" }

/-- A store configured with the 11:00-14:00 window. -/
def c6Store : Store := { leererStore with zeitfenster := some c6Fenster }

/-- C6: the ordering-window check parses the configured values as
hour:minute and is open exactly when `from ≤ now ≤ to`; if either value is
absent or fails to parse, the page is open (fail-open).  Concretely, with
the 11:00-14:00 window it is open at 12:00 (720 minutes) and closed at
15:00 (900 minutes), and open under a malformed value. -/
theorem c6_zeitfenster_fail_open :
    (∀ v b vt bt now, parseHM v = some vt → parseHM b = some bt →
        (istBestellbar (some v) (some b) now = true ↔ (vt ≤ now ∧ now ≤ bt)))
    ∧ (∀ v b now, parseHM v = none ∨ parseHM b = none →
        istBestellbar (some v) (some b) now = true)
    ∧ (∀ ob now, istBestellbar none ob now = true)
    ∧ (∀ ov now, istBestellbar ov none now = true)
    ∧ istBestellbar (some "11:00") (some "14:00") 720 = true
    ∧ istBestellbar (some "11:00") (some "14:00") 900 = false
    ∧ istBestellbar (some "11am") (some "14:00") 720 = true
    ∧ (∀ st now, st.zeitfenster = none → bestellseiteBestellbar st now = true)
    ∧ (∀ st e now, st.zeitfenster = some e →
        bestellseiteBestellbar st now = istBestellbar e.von e.bis now) := by
  refine ⟨?_, ?_, ?_, ?_, rfl, rfl, rfl, ?_, ?_⟩
  · intro v b vt bt now h1 h2
    simp [istBestellbar, h1, h2]
  · intro v b now h
    rcases h with h | h
    · simp [istBestellbar, h]
    · cases hv : parseHM v <;> simp [istBestellbar, hv, h]
  · intro ob now
    rfl
  · intro ov now
    cases ov <;> rfl
  · intro st now h
    simp [bestellseiteBestellbar, h]
  · intro st e now h
    simp [bestellseiteBestellbar, h]

/-- Witness for C6: the window instance at 12:00, the malformed value
instance, and the two store-level instances. -/
theorem c6_zeitfenster_fail_open_witness :
    (istBestellbar (some "11:00") (some "14:00") 720 = true ↔ (660 ≤ 720 ∧ 720 ≤ 840))
    ∧ istBestellbar (some "11am") (some "14:00") 600 = true
    ∧ bestellseiteBestellbar leererStore 720 = true
    ∧ bestellseiteBestellbar c6Store 720 = istBestellbar (some "11:00") (some "14:00") 720 :=
  ⟨c6_zeitfenster_fail_open.1 "11:00" "14:00" 660 840 720 rfl rfl,
   c6_zeitfenster_fail_open.2.1 "11am" "14:00" 600 (Or.inl rfl),
   c6_zeitfenster_fail_open.2.2.2.2.2.2.2.1 leererStore 720 rfl,
   c6_zeitfenster_fail_open.2.2.2.2.2.2.2.2 c6Store c6Fenster 720 rfl⟩

/-- The dish of the C4 example: price 8. -/
def c4Gericht : Gericht :=
  { nr := some "1", name := some "Suppe", preis := some 8, schaerfegrad := none, notiz := none }

/-- The C4 example order: total 8, payment amount 10, change not yet given. -/
def c4Bestellung : Bestellung :=
  { id := 0, name := some "Anna", gerichte := [c4Gericht], lieferant_id := none,
    zahlung := some { erhalten := true, betrag := 10, rueckgeld_gegeben := false } }

/-- The same order with the change-given flag set. -/
def c4BestellungGegeben : Bestellung :=
  { c4Bestellung with zahlung := some { erhalten := true, betrag := 10, rueckgeld_gegeben := true } }

/-- C4: the order-list derivation computes, for every order, the rounded
total of the dish prices and the change `max(0, paymentAmount − total)`
rounded to 2 decimal places, except that with the change-given flag set the
change is null; the admin list page reports exactly these values.  On the
example order with total 8 and payment 10 the change is 2, and null once
the flag is set. -/
theorem c4_listOrders_change_derivation :
    (∀ b : Bestellung, viewBestellung b = viewBestellungSpec b)
    ∧ (∀ st : Store, (admin_bestellungen true st).1 =
        Response.bestellungenPage (st.bestellungen.map viewBestellung)
          (round2 ((st.bestellungen.map summeGerichte).sum)))
    ∧ viewBestellung c4Bestellung = { summe := 8, rueckgeld := some 2 }
    ∧ viewBestellung c4BestellungGegeben = { summe := 8, rueckgeld := none } := by
  refine ⟨?_, fun st => rfl, ?_, ?_⟩
  · intro b
    simp only [viewBestellung, viewBestellungSpec]
    cases hz : (b.zahlung.map Zahlung.rueckgeld_gegeben).getD false with
    | true => simp [hz]
    | false =>
      simp only [hz, Bool.not_false, if_true, Bool.false_eq_true, if_false,
        BestellungView.mk.injEq, true_and, Option.some.injEq]
      rcases lt_or_le (summeGerichte b) ((b.zahlung.map Zahlung.betrag).getD 0) with hlt | hle
      · rw [if_pos hlt, max_eq_right (sub_nonneg.mpr hlt.le)]
      · rw [if_neg (not_lt.mpr hle), max_eq_left (sub_nonpos.mpr hle), round2_zero]
  · norm_num [viewBestellung, c4Bestellung, c4Gericht, summeGerichte, round2,
      roundHalfEven, floorQ]
  · norm_num [viewBestellung, c4BestellungGegeben, c4Bestellung, c4Gericht, summeGerichte,
      round2, roundHalfEven, floorQ]

/-- The order of the C9 scenarios. -/
def c9Bestellung : Bestellung :=
  { id := 3, name := some "Bob", gerichte := [], lieferant_id := none, zahlung := none }

/-- A store holding exactly the order with id 3. -/
def c9Store : Store := { leererStore with bestellungen := [c9Bestellung], nextId := 4 }

/-- A dish form entry whose price field does not parse. -/
def c9FeldKaputt : GerichtFeld :=
  { nr := some "2", name := some "Pad", preis := some "abc", schaerfegrad := none, notiz := none }

/-- An edit form whose only dish entry has a malformed price. -/
def c9FormKaputt : EditForm := { name := some "Bobby", gerichte := [c9FeldKaputt] }

/-- An edit form with no dish entries at all. -/
def c9FormLeer : EditForm := { name := some "Bobby", gerichte := [] }

/-- C9: editing an unknown order id answers 404; with a known id the POST
replaces the order's name and entire dish list, where the dish fields are
read sequentially until the first index with a missing name field, each
price is parsed as a decimal, and an absent or malformed price is a fatal
uncaught error that leaves the store unchanged. -/
theorem c9_edit_order :
    (∀ st bid form, bid ∉ st.bestellungen.map Bestellung.id →
        bestellung_bearbeiten true bid form st =
          (Response.notFound "Bestellung nicht gefunden", st))
    ∧ (∀ st bid f gs, bid ∈ st.bestellungen.map Bestellung.id →
        parseGerichte f.gerichte = Except.ok gs →
        bestellung_bearbeiten true bid (some f) st =
          (Response.redirectBestellungen,
           { st with bestellungen := updateFirst (fun b => b.id == bid) (fun b => { b with name := f.name, gerichte := gs }) st.bestellungen }))
    ∧ (∀ st bid f e, bid ∈ st.bestellungen.map Bestellung.id →
        parseGerichte f.gerichte = Except.error e →
        bestellung_bearbeiten true bid (some f) st = (Response.serverError, st))
    ∧ (∀ l₁ l₂ g, g.name = none → parseGerichte (l₁ ++ g :: l₂) = parseGerichte l₁)
    ∧ (∀ g rest s, g.name.isSome = true → g.preis = some s → pyFloat s = none →
        parseGerichte (g :: rest) = Except.error "ValueError")
    ∧ (∀ g rest, g.name.isSome = true → g.preis = none →
        parseGerichte (g :: rest) = Except.error "TypeError") := by
  refine ⟨?_, ?_, ?_, ?_, ?_, ?_⟩
  · intro st bid form h
    simp [bestellung_bearbeiten, findFirst_bestellung_none h]
  · intro st bid f gs h1 h2
    obtain ⟨b0, hb0⟩ := Option.isSome_iff_exists.mp (findFirst_bestellung_isSome h1)
    simp [bestellung_bearbeiten, hb0, h2]
  · intro st bid f e h1 h2
    obtain ⟨b0, hb0⟩ := Option.isSome_iff_exists.mp (findFirst_bestellung_isSome h1)
    simp [bestellung_bearbeiten, hb0, h2]
  · intro l₁ l₂ g hg
    induction l₁ with
    | nil => simp [parseGerichte, hg]
    | cons x xs ih =>
      cases hn : x.name with
      | none => simp [parseGerichte, hn]
      | some nm =>
        cases hp : x.preis with
        | none => simp [parseGerichte, hn, hp]
        | some p =>
          cases hf : pyFloat p with
          | none => simp [parseGerichte, hn, hp, hf]
          | some q => simp [parseGerichte, hn, hp, hf, ih]
  · intro g rest s hname hpreis hf
    obtain ⟨nm, hnm⟩ := Option.isSome_iff_exists.mp hname
    simp [parseGerichte, hnm, hpreis, hf]
  · intro g rest hname hpreis
    obtain ⟨nm, hnm⟩ := Option.isSome_iff_exists.mp hname
    simp [parseGerichte, hnm, hpreis]

/-- Witness for C9 at concrete inputs: editing the absent id 9 answers 404;
editing id 3 with an empty dish form replaces name and dish list; a
malformed price aborts with the fatal error and no change; the scan stops
at the first missing name; "abc" as a price is the fatal ValueError. -/
theorem c9_edit_order_witness :
    bestellung_bearbeiten true 9 (some c9FormLeer) c9Store =
        (Response.notFound "Bestellung nicht gefunden", c9Store)
    ∧ bestellung_bearbeiten true 3 (some c9FormLeer) c9Store =
        (Response.redirectBestellungen,
         { c9Store with bestellungen :=
             [{ c9Bestellung with name := some "Bobby", gerichte := [] }] })
    ∧ bestellung_bearbeiten true 3 (some c9FormKaputt) c9Store =
        (Response.serverError, c9Store)
    ∧ parseGerichte ([] ++ ⟨none, none, none, none, none⟩ :: [c9FeldKaputt]) = parseGerichte []
    ∧ parseGerichte [c9FeldKaputt] = Except.error "ValueError"
    ∧ parseGerichte [⟨none, some "Pad", none, none, none⟩] = Except.error "TypeError" :=
  ⟨c9_edit_order.1 c9Store 9 (some c9FormLeer) (by decide),
   c9_edit_order.2.1 c9Store 3 c9FormLeer [] (by decide) rfl,
   c9_edit_order.2.2.1 c9Store 3 c9FormKaputt "ValueError" (by decide) rfl,
   c9_edit_order.2.2.2.1 [] [c9FeldKaputt] ⟨none, none, none, none, none⟩ rfl,
   c9_edit_order.2.2.2.2.1 c9FeldKaputt [] "abc" rfl rfl rfl,
   c9_edit_order.2.2.2.2.2 ⟨none, some "Pad", none, none, none⟩ [] rfl rfl⟩

lemma lieferanten_nach_bearbeiten (s : Bool) (bid : Id) (f : Option EditForm) (st : Store) :
    ((bestellung_bearbeiten s bid f st).2).lieferanten = st.lieferanten := by
  unfold bestellung_bearbeiten
  repeat' split
  all_goals rfl

lemma lieferanten_nach_aktivieren (lid : Id) (st : Store) :
    ((lieferant_aktivieren true lid st).2).lieferanten = aktivierenListe lid st.lieferanten := by
  cases hf : findFirst (fun x => x.id == lid) (aktivierenListe lid st.lieferanten) with
  | none => simp [lieferant_aktivieren, hf]
  | some aktiver => simp [lieferant_aktivieren, hf]

lemma countP_nach_lieferant_bearbeiten (s : Bool) (lid : Id) (f : Option LieferantForm)
    (st : Store) :
    ((lieferant_bearbeiten s lid f st).2).lieferanten.countP (fun x => x.aktiv) =
      st.lieferanten.countP (fun x => x.aktiv) := by
  cases s with
  | false => rfl
  | true =>
    cases hf : findFirst (fun x => x.id == lid) st.lieferanten with
    | none => simp [lieferant_bearbeiten, hf]
    | some l0 =>
      cases f with
      | none => simp [lieferant_bearbeiten, hf]
      | some fo =>
        cases hv : parseVersand fo.versand with
        | none => simp [lieferant_bearbeiten, hf, hv]
        | some v =>
          simp only [lieferant_bearbeiten, hf, hv, Bool.not_true, Bool.false_eq_true,
            if_false]
          apply countP_updateFirst
          intro x
          rfl

/-- The number of suppliers whose active flag is set. -/
def aktivZahl (st : Store) : Nat := st.lieferanten.countP (fun x => x.aktiv)

/-- The supplier that is active in the C2/C3 scenarios before switching. -/
def c2LieferantA : Lieferant :=
  { id := 0, name := some "A", versand_pro_person := 0, menu_typ := none, menu_info := none,
    whatsapp_nummer := some "111", aktiv := true }

/-- The supplier that gets activated in the C3 scenario. -/
def c2LieferantB : Lieferant :=
  { id := 1, name := some "B", versand_pro_person := 0, menu_typ := none, menu_info := none,
    whatsapp_nummer := some "222", aktiv := false }

/-- A store with active supplier A (id 0) and inactive supplier B (id 1),
whatsapp settings mirroring A. -/
def c2Store : Store :=
  { bestellungen := [], lieferanten := [c2LieferantA, c2LieferantB], zeitfenster := none,
    whatsappNummer := some "111", nextId := 2 }

/-- C2 counterexample: activating the unknown id 7 does not answer a 404
NotFound — the handler raises an unhandled error (HTTP 500) after every
supplier, including the previously active one, has already been
deactivated; the whatsapp settings are left untouched. -/
theorem c2_counterexample :
    lieferant_aktivieren true 7 c2Store =
      (Response.serverError,
       { c2Store with lieferanten := [{ c2LieferantA with aktiv := false }, c2LieferantB] }) :=
  rfl

/-- C2 (amended): with a known id, activation sets every supplier's active
flag false, then the target's flag true, then upserts the target's contact
number into the whatsapp settings document; with an unknown id it does not
fail with NotFound — it deactivates every supplier, the activation matches
nothing, and reading the missing supplier raises an unhandled error, the
settings unchanged. -/
theorem c2_set_active_supplier_amended :
    (∀ st lid lB, findFirst (fun x => x.id == lid) st.lieferanten = some lB →
        lieferant_aktivieren true lid st =
          (Response.redirectLieferanten,
           { st with lieferanten := aktivierenListe lid st.lieferanten,
                     whatsappNummer := some (lB.whatsapp_nummer.getD "") }))
    ∧ (∀ st lid, findFirst (fun x => x.id == lid) st.lieferanten = none →
        lieferant_aktivieren true lid st =
          (Response.serverError,
           { st with lieferanten := aktivierenListe lid st.lieferanten })) := by
  constructor
  · intro st lid lB h
    simp [lieferant_aktivieren, findFirst_aktivierenListe_some h]
  · intro st lid h
    simp [lieferant_aktivieren, findFirst_aktivierenListe_none h]

/-- Witness for C2 (amended): activating the known id 0 deactivates B,
activates A and mirrors "111"; activating the unknown id 7 crashes with
every supplier deactivated. -/
theorem c2_set_active_supplier_amended_witness :
    lieferant_aktivieren true 0 c2Store =
        (Response.redirectLieferanten,
         { c2Store with lieferanten := [{ c2LieferantA with aktiv := true }, c2LieferantB],
                        whatsappNummer := some "111" })
    ∧ lieferant_aktivieren true 7 c2Store =
        (Response.serverError,
         { c2Store with lieferanten := [{ c2LieferantA with aktiv := false }, c2LieferantB] }) :=
  ⟨c2_set_active_supplier_amended.1 c2Store 0 c2LieferantA rfl,
   c2_set_active_supplier_amended.2 c2Store 7 rfl⟩

/-- The supplier-create form of the C3 witness. -/
def c3Form : LieferantForm :=
  { name := some "C", versand := none, menu_typ := none, menu_info := none,
    whatsapp := some "333" }

/-- C3: after a completed activation of an existing supplier B exactly one
supplier is active, it is B, and the whatsapp settings number equals B's
contact number; and the invariant that at most one supplier is active is
preserved by every admin operation and by the public submission, with
supplier creation inserting the new supplier with the active flag false. -/
theorem c3_single_active_supplier :
    (∀ st lid lB, findFirst (fun x => x.id == lid) st.lieferanten = some lB →
        aktivZahl (lieferant_aktivieren true lid st).2 = 1
        ∧ (∀ x ∈ (lieferant_aktivieren true lid st).2.lieferanten,
            x.aktiv = true → x.id = lid)
        ∧ (∀ n, lB.whatsapp_nummer = some n →
            (lieferant_aktivieren true lid st).2.whatsappNummer = some n))
    ∧ (∀ r s st, aktivZahl st ≤ 1 → aktivZahl (handleAdmin r s st).2 ≤ 1)
    ∧ (∀ d st, aktivZahl (bestellung_absenden d st).2 = aktivZahl st)
    ∧ (∀ f st v, parseVersand f.versand = some v →
        (admin_lieferanten true (some f) st).2.lieferanten =
          st.lieferanten ++
            [{ id := st.nextId, name := f.name, versand_pro_person := v, menu_typ := f.menu_typ, menu_info := f.menu_info, whatsapp_nummer := f.whatsapp, aktiv := false }]) := by
  refine ⟨?_, ?_, ?_, ?_⟩
  · intro st lid lB h
    have hfs := findFirst_aktivierenListe_some h
    refine ⟨?_, ?_, ?_⟩
    · show ((lieferant_aktivieren true lid st).2).lieferanten.countP (fun x => x.aktiv) = 1
      rw [lieferanten_nach_aktivieren]
      exact countP_aktivierenListe_some h
    · intro x hx hakt
      apply aktivierenListe_aktiv_id lid st.lieferanten x ?_ hakt
      rw [lieferanten_nach_aktivieren] at hx
      exact hx
    · intro n hn
      simp [lieferant_aktivieren, hfs, hn]
  · intro r s st h
    cases s with
    | false => cases r <;> exact h
    | true =>
      cases r with
      | logout => exact h
      | bestellungen => exact h
      | bestellungLoeschen bid => exact h
      | alleLoeschen => exact h
      | bearbeiten bid f =>
        show ((bestellung_bearbeiten true bid f st).2).lieferanten.countP (fun x => x.aktiv) ≤ 1
        rw [lieferanten_nach_bearbeiten]
        exact h
      | zahlung bid f => exact h
      | lieferanten f =>
        cases f with
        | none => exact h
        | some fo =>
          cases hv : parseVersand fo.versand with
          | none => simpa [handleAdmin, admin_lieferanten, aktivZahl, hv] using h
          | some v =>
            simp only [handleAdmin, admin_lieferanten, hv, aktivZahl, Bool.not_true,
              Bool.false_eq_true, if_false]
            simpa [List.countP_append, List.countP_cons] using h
      | aktivieren lid =>
        show ((lieferant_aktivieren true lid st).2).lieferanten.countP (fun x => x.aktiv) ≤ 1
        rw [lieferanten_nach_aktivieren]
        cases hf : findFirst (fun x => x.id == lid) st.lieferanten with
        | none => rw [countP_aktivierenListe_none hf]; exact Nat.zero_le 1
        | some lB => rw [countP_aktivierenListe_some hf]
      | lieferantLoeschen lid =>
        show ((lieferant_loeschen true lid st).2).lieferanten.countP (fun x => x.aktiv) ≤ 1
        exact le_trans (countP_deleteFirst_le _ _ _) h
      | lieferantBearbeiten lid f =>
        show ((lieferant_bearbeiten true lid f st).2).lieferanten.countP (fun x => x.aktiv) ≤ 1
        rw [countP_nach_lieferant_bearbeiten]
        exact h
      | zeitfenster f => cases f <;> exact h
  · intro d st
    cases d with
    | none => rfl
    | some dd =>
      show ((bestellung_absenden (some dd) st).2).lieferanten.countP (fun x => x.aktiv) =
        st.lieferanten.countP (fun x => x.aktiv)
      unfold bestellung_absenden
      repeat' split
      all_goals rfl
  · intro f st v hv
    simp [admin_lieferanten, hv]

/-- Witness for C3 at concrete inputs: activating supplier B (id 1) in the
two-supplier store leaves exactly one active supplier, mirrors "222" into
the settings, the dispatcher preserves the invariant there, and creating a
supplier appends it with the active flag false. -/
theorem c3_single_active_supplier_witness :
    aktivZahl (lieferant_aktivieren true 1 c2Store).2 = 1
    ∧ (lieferant_aktivieren true 1 c2Store).2.whatsappNummer = some "222"
    ∧ aktivZahl (handleAdmin (AdminRoute.aktivieren 1) true c2Store).2 ≤ 1
    ∧ (admin_lieferanten true (some c3Form) c2Store).2.lieferanten =
        c2Store.lieferanten ++
          [{ id := 2, name := some "C", versand_pro_person := 0, menu_typ := none, menu_info := none, whatsapp_nummer := some "333", aktiv := false }] :=
  ⟨(c3_single_active_supplier.1 c2Store 1 c2LieferantB rfl).1,
   (c3_single_active_supplier.1 c2Store 1 c2LieferantB rfl).2.2 "222" rfl,
   c3_single_active_supplier.2.1 (AdminRoute.aktivieren 1) true c2Store (by decide),
   c3_single_active_supplier.2.2.2 c3Form c2Store 0 rfl⟩

end BestellDesk
